import Mathlib

/-!
# Noson: event handler façade, event messages and zones

A shallow embedding of `noson/src/eventhandler.h` and `noson/src/sonoszone.h`.

* Objects live at addresses; a shared or raw pointer is an optional address
  (`none` is the empty/null pointer).
* `unsigned` values are natural numbers; the headers perform no arithmetic on them.
* The engine class `EventHandlerThread` is abstract: its pure virtual member
  functions are supplied by a table of overrides (`Virtuals`), over which every
  statement about the façade is universally quantified.
* A member function is a state transformer.  Each façade member function returns
  its result together with the façade object and the world as they are after the call.
-/

namespace NSROOT

/-! ## Event kinds and messages (eventhandler.h, lines 40-58) -/

/-- Address of an object. -/
abbrev Addr := Nat

/-- The enumeration `EVENT_t`. -/
inductive EVENT_t where
  | EVENT_HANDLER_STATUS
  | EVENT_UPNP_PROPCHANGE
  | EVENT_HTTP_STREAM
  | EVENT_UNKNOWN
  deriving DecidableEq

/-- The integer value the declaration gives each enumerator (the first is `= 0`,
the following ones count upwards). -/
def EVENT_t.toNat : EVENT_t → Nat
  | .EVENT_HANDLER_STATUS => 0
  | .EVENT_UPNP_PROPCHANGE => 1
  | .EVENT_HTTP_STREAM => 2
  | .EVENT_UNKNOWN => 3

/-- The struct `EventMessage`. -/
structure EventMessage where
  event : EVENT_t
  subject : List String
  deriving DecidableEq

/-- The constructor `EventMessage()`: `event(EVENT_UNKNOWN)`, `subject` default-constructed. -/
def EventMessage.new : EventMessage :=
  { event := EVENT_t.EVENT_UNKNOWN, subject := [] }

/-- The typedef `EventMessagePtr`, a shared pointer to a constant message. -/
abbrev EventMessagePtr := Option EventMessage

/-- A raw pointer `EventSubscriber *`. -/
abbrev EventSubscriberPtr := Option Addr

/-- The typedef `RequestBrokerPtr` (declared in requestbroker.h), a shared pointer. -/
abbrev RequestBrokerPtr := Option Addr

/-! ## The engine `EventHandlerThread` (eventhandler.h, lines 67-98) -/

/-- An object of class `EventHandlerThread`: the two protected data members
and the state `σ` of the concrete subclass. -/
structure EventHandlerThread (σ : Type) where
  m_listenerAddress : String
  m_port : Nat
  derived : σ

/-- The inline member `GetAddress() const`. -/
def EventHandlerThread.GetAddress {σ : Type} (e : EventHandlerThread σ) : String :=
  e.m_listenerAddress

/-- The inline member `GetPort() const`. -/
def EventHandlerThread.GetPort {σ : Type} (e : EventHandlerThread σ) : Nat :=
  e.m_port

/-- The pure virtual member functions of `EventHandlerThread`, as overridden by
the concrete engine.  Each takes the engine object and returns it as it is after the call. -/
structure Virtuals (σ : Type) where
  Start : EventHandlerThread σ → Bool × EventHandlerThread σ
  Stop : EventHandlerThread σ → EventHandlerThread σ
  IsRunning : EventHandlerThread σ → Bool × EventHandlerThread σ
  CreateSubscription : EventSubscriberPtr → EventHandlerThread σ → Nat × EventHandlerThread σ
  SubscribeForEvent : Nat → EVENT_t → EventHandlerThread σ → Bool × EventHandlerThread σ
  RevokeSubscription : Nat → EventHandlerThread σ → EventHandlerThread σ
  RevokeAllSubscriptions : EventSubscriberPtr → EventHandlerThread σ → EventHandlerThread σ
  DispatchEvent : EventMessagePtr → EventHandlerThread σ → EventHandlerThread σ
  RegisterRequestBroker : RequestBrokerPtr → EventHandlerThread σ → EventHandlerThread σ
  UnregisterRequestBroker : String → EventHandlerThread σ → EventHandlerThread σ
  GetRequestBroker : String → EventHandlerThread σ → RequestBrokerPtr × EventHandlerThread σ
  AllRequestBroker : EventHandlerThread σ → List RequestBrokerPtr × EventHandlerThread σ

/-- One invocation of a member function of an engine, with its arguments. -/
inductive EngineCall where
  | GetAddress
  | GetPort
  | Start
  | Stop
  | IsRunning
  | CreateSubscription (sub : EventSubscriberPtr)
  | SubscribeForEvent (subid : Nat) (event : EVENT_t)
  | RevokeSubscription (subid : Nat)
  | RevokeAllSubscriptions (sub : EventSubscriberPtr)
  | DispatchEvent (msg : EventMessagePtr)
  | RegisterRequestBroker (rb : RequestBrokerPtr)
  | UnregisterRequestBroker (name : String)
  | GetRequestBroker (name : String)
  | AllRequestBroker
  deriving DecidableEq

/-- The world outside the façade: the engine object at each address and the
record of every engine member function invoked so far, oldest first. -/
structure World (σ : Type) where
  heap : Addr → EventHandlerThread σ
  calls : List (Addr × EngineCall)

/-- Invoke through pointer `p` a member function that returns a value: `p->f(...)`. -/
def World.call {σ α : Type} (w : World σ) (p : Addr) (c : EngineCall)
    (f : EventHandlerThread σ → α × EventHandlerThread σ) : α × World σ :=
  ((f (w.heap p)).1,
   { heap := Function.update w.heap p (f (w.heap p)).2, calls := w.calls ++ [(p, c)] })

/-- Invoke through pointer `p` a member function that returns nothing. -/
def World.callVoid {σ : Type} (w : World σ) (p : Addr) (c : EngineCall)
    (f : EventHandlerThread σ → EventHandlerThread σ) : World σ :=
  { heap := Function.update w.heap p (f (w.heap p)), calls := w.calls ++ [(p, c)] }

/-- Invoke through pointer `p` a `const` member function. -/
def World.callConst {σ α : Type} (w : World σ) (p : Addr) (c : EngineCall)
    (f : EventHandlerThread σ → α) : α × World σ :=
  (f (w.heap p), { heap := w.heap, calls := w.calls ++ [(p, c)] })

/-! ## The façade `EventHandler` (eventhandler.h, lines 100-124) -/

/-- An object of class `EventHandler`: the single data member `m_imp`. -/
structure EventHandler where
  m_imp : Option Addr
  deriving DecidableEq

/-- What a façade member function leaves behind: the returned value, the façade
object and the world after the call. -/
structure Outcome (α σ : Type) where
  ret : α
  self : EventHandler
  world : World σ

namespace EventHandler

variable {σ : Type}

/-- The member `bool Start()`: `m_imp ? m_imp->Start() : false`. -/
def Start (V : Virtuals σ) (h : EventHandler) (w : World σ) : Outcome Bool σ :=
  match h.m_imp with
  | some p => let r := w.call p EngineCall.Start V.Start; ⟨r.1, h, r.2⟩
  | none => ⟨false, h, w⟩

/-- The member `void Stop()`: `if (m_imp) m_imp->Stop()`. -/
def Stop (V : Virtuals σ) (h : EventHandler) (w : World σ) : Outcome Unit σ :=
  match h.m_imp with
  | some p => ⟨(), h, w.callVoid p EngineCall.Stop V.Stop⟩
  | none => ⟨(), h, w⟩

/-- The member `std::string GetAddress() const`: `m_imp ? m_imp->GetAddress() : ""`. -/
def GetAddress (h : EventHandler) (w : World σ) : Outcome String σ :=
  match h.m_imp with
  | some p =>
    let r := w.callConst p EngineCall.GetAddress EventHandlerThread.GetAddress; ⟨r.1, h, r.2⟩
  | none => ⟨"", h, w⟩

/-- The member `unsigned GetPort() const`: `m_imp ? m_imp->GetPort() : 0`. -/
def GetPort (h : EventHandler) (w : World σ) : Outcome Nat σ :=
  match h.m_imp with
  | some p => let r := w.callConst p EngineCall.GetPort EventHandlerThread.GetPort; ⟨r.1, h, r.2⟩
  | none => ⟨0, h, w⟩

/-- The member `bool IsRunning()`: `m_imp ? m_imp->IsRunning() : false`. -/
def IsRunning (V : Virtuals σ) (h : EventHandler) (w : World σ) : Outcome Bool σ :=
  match h.m_imp with
  | some p => let r := w.call p EngineCall.IsRunning V.IsRunning; ⟨r.1, h, r.2⟩
  | none => ⟨false, h, w⟩

/-- The member `void RegisterRequestBroker(RequestBrokerPtr rb)`. -/
def RegisterRequestBroker (V : Virtuals σ) (rb : RequestBrokerPtr) (h : EventHandler)
    (w : World σ) : Outcome Unit σ :=
  match h.m_imp with
  | some p =>
    ⟨(), h, w.callVoid p (EngineCall.RegisterRequestBroker rb) (V.RegisterRequestBroker rb)⟩
  | none => ⟨(), h, w⟩

/-- The member `void UnregisterRequestBroker(const std::string& name)`. -/
def UnregisterRequestBroker (V : Virtuals σ) (name : String) (h : EventHandler)
    (w : World σ) : Outcome Unit σ :=
  match h.m_imp with
  | some p =>
    ⟨(), h, w.callVoid p (EngineCall.UnregisterRequestBroker name) (V.UnregisterRequestBroker name)⟩
  | none => ⟨(), h, w⟩

/-- The member `RequestBrokerPtr GetRequestBroker(const std::string& name)`:
`m_imp ? m_imp->GetRequestBroker(name) : RequestBrokerPtr()`. -/
def GetRequestBroker (V : Virtuals σ) (name : String) (h : EventHandler)
    (w : World σ) : Outcome RequestBrokerPtr σ :=
  match h.m_imp with
  | some p =>
    let r := w.call p (EngineCall.GetRequestBroker name) (V.GetRequestBroker name); ⟨r.1, h, r.2⟩
  | none => ⟨none, h, w⟩

/-- The member `std::vector<RequestBrokerPtr> AllRequestBroker()`:
`m_imp ? m_imp->AllRequestBroker() : std::vector<RequestBrokerPtr>()`. -/
def AllRequestBroker (V : Virtuals σ) (h : EventHandler) (w : World σ) :
    Outcome (List RequestBrokerPtr) σ :=
  match h.m_imp with
  | some p => let r := w.call p EngineCall.AllRequestBroker V.AllRequestBroker; ⟨r.1, h, r.2⟩
  | none => ⟨[], h, w⟩

/-- The member `unsigned CreateSubscription(EventSubscriber *sub)`:
`m_imp ? m_imp->CreateSubscription(sub) : 0`. -/
def CreateSubscription (V : Virtuals σ) (sub : EventSubscriberPtr) (h : EventHandler)
    (w : World σ) : Outcome Nat σ :=
  match h.m_imp with
  | some p =>
    let r := w.call p (EngineCall.CreateSubscription sub) (V.CreateSubscription sub); ⟨r.1, h, r.2⟩
  | none => ⟨0, h, w⟩

/-- The member `bool SubscribeForEvent(unsigned subid, EVENT_t event)`:
`m_imp ? m_imp->SubscribeForEvent(subid, event) : false`. -/
def SubscribeForEvent (V : Virtuals σ) (subid : Nat) (event : EVENT_t) (h : EventHandler)
    (w : World σ) : Outcome Bool σ :=
  match h.m_imp with
  | some p =>
    let r := w.call p (EngineCall.SubscribeForEvent subid event) (V.SubscribeForEvent subid event)
    ⟨r.1, h, r.2⟩
  | none => ⟨false, h, w⟩

/-- The member `void RevokeSubscription(unsigned subid)`. -/
def RevokeSubscription (V : Virtuals σ) (subid : Nat) (h : EventHandler)
    (w : World σ) : Outcome Unit σ :=
  match h.m_imp with
  | some p =>
    ⟨(), h, w.callVoid p (EngineCall.RevokeSubscription subid) (V.RevokeSubscription subid)⟩
  | none => ⟨(), h, w⟩

/-- The member `void RevokeAllSubscriptions(EventSubscriber *sub)`. -/
def RevokeAllSubscriptions (V : Virtuals σ) (sub : EventSubscriberPtr) (h : EventHandler)
    (w : World σ) : Outcome Unit σ :=
  match h.m_imp with
  | some p =>
    ⟨(), h, w.callVoid p (EngineCall.RevokeAllSubscriptions sub) (V.RevokeAllSubscriptions sub)⟩
  | none => ⟨(), h, w⟩

end EventHandler

/-- The outcome `o` of a façade call made in world `w` is one invocation `c` of
the engine at `p`, and nothing else: the call returns `r`, the façade object is
still `h`, the engine at `p` is left as `e`, every other object is as it was, and
the record of engine invocations has grown by exactly the one entry `(p, c)`. -/
def Forwards {α σ : Type} (w : World σ) (h : EventHandler) (p : Addr) (c : EngineCall)
    (r : α) (e : EventHandlerThread σ) (o : Outcome α σ) : Prop :=
  o.ret = r ∧ o.self = h ∧ o.world.heap p = e
    ∧ (∀ q, q ≠ p → o.world.heap q = w.heap q)
    ∧ o.world.calls = w.calls ++ [(p, c)]

/-- The outcome `o` of a façade call made in world `w` has no side effect: the
façade object is still `h`, every engine object is as it was, and no engine member
function was invoked. -/
def NoEffect {α σ : Type} (w : World σ) (h : EventHandler) (o : Outcome α σ) : Prop :=
  o.self = h ∧ o.world.heap = w.heap ∧ o.world.calls = w.calls

/-- A call of one of the thirteen public member functions of the façade. -/
inductive FacadeOp where
  | Start
  | Stop
  | GetAddress
  | GetPort
  | IsRunning
  | RegisterRequestBroker (rb : RequestBrokerPtr)
  | UnregisterRequestBroker (name : String)
  | GetRequestBroker (name : String)
  | AllRequestBroker
  | CreateSubscription (sub : EventSubscriberPtr)
  | SubscribeForEvent (subid : Nat) (event : EVENT_t)
  | RevokeSubscription (subid : Nat)
  | RevokeAllSubscriptions (sub : EventSubscriberPtr)
  deriving DecidableEq

/-- Perform one façade call, dropping the returned value. -/
def EventHandler.exec {σ : Type} (V : Virtuals σ) (op : FacadeOp) (h : EventHandler)
    (w : World σ) : EventHandler × World σ :=
  match op with
  | .Start => ((h.Start V w).self, (h.Start V w).world)
  | .Stop => ((h.Stop V w).self, (h.Stop V w).world)
  | .GetAddress => ((h.GetAddress w).self, (h.GetAddress w).world)
  | .GetPort => ((h.GetPort w).self, (h.GetPort w).world)
  | .IsRunning => ((h.IsRunning V w).self, (h.IsRunning V w).world)
  | .RegisterRequestBroker rb =>
    ((h.RegisterRequestBroker V rb w).self, (h.RegisterRequestBroker V rb w).world)
  | .UnregisterRequestBroker name =>
    ((h.UnregisterRequestBroker V name w).self, (h.UnregisterRequestBroker V name w).world)
  | .GetRequestBroker name =>
    ((h.GetRequestBroker V name w).self, (h.GetRequestBroker V name w).world)
  | .AllRequestBroker => ((h.AllRequestBroker V w).self, (h.AllRequestBroker V w).world)
  | .CreateSubscription sub =>
    ((h.CreateSubscription V sub w).self, (h.CreateSubscription V sub w).world)
  | .SubscribeForEvent subid event =>
    ((h.SubscribeForEvent V subid event w).self, (h.SubscribeForEvent V subid event w).world)
  | .RevokeSubscription subid =>
    ((h.RevokeSubscription V subid w).self, (h.RevokeSubscription V subid w).world)
  | .RevokeAllSubscriptions sub =>
    ((h.RevokeAllSubscriptions V sub w).self, (h.RevokeAllSubscriptions V sub w).world)

/-- Perform a finite sequence of façade calls, first to last. -/
def EventHandler.run {σ : Type} (V : Virtuals σ) :
    List FacadeOp → EventHandler → World σ → EventHandler × World σ
  | [], h, w => (h, w)
  | op :: ops, h, w => EventHandler.run V ops (h.exec V op w).1 (h.exec V op w).2

/-! ## The declared operation sets of the two classes -/

/-- The declaration of a member function: return type, name, parameter types. -/
structure Signature where
  ret : String
  name : String
  params : List String
  deriving DecidableEq

/-- The public member functions class `EventHandlerThread` declares
(eventhandler.h, lines 73-91), constructor and destructor left out. -/
def EventHandlerThread.operations : List Signature :=
  [ ⟨"std::string", "GetAddress", []⟩,
    ⟨"unsigned", "GetPort", []⟩,
    ⟨"bool", "Start", []⟩,
    ⟨"void", "Stop", []⟩,
    ⟨"bool", "IsRunning", []⟩,
    ⟨"unsigned", "CreateSubscription", ["EventSubscriber *"]⟩,
    ⟨"bool", "SubscribeForEvent", ["unsigned", "EVENT_t"]⟩,
    ⟨"void", "RevokeSubscription", ["unsigned"]⟩,
    ⟨"void", "RevokeAllSubscriptions", ["EventSubscriber *"]⟩,
    ⟨"void", "DispatchEvent", ["const EventMessagePtr&"]⟩,
    ⟨"void", "RegisterRequestBroker", ["RequestBrokerPtr"]⟩,
    ⟨"void", "UnregisterRequestBroker", ["const std::string&"]⟩,
    ⟨"RequestBrokerPtr", "GetRequestBroker", ["const std::string&"]⟩,
    ⟨"std::vector<RequestBrokerPtr>", "AllRequestBroker", []⟩ ]

/-- The public member functions class `EventHandler` declares
(eventhandler.h, lines 106-120), constructors left out. -/
def EventHandler.operations : List Signature :=
  [ ⟨"bool", "Start", []⟩,
    ⟨"void", "Stop", []⟩,
    ⟨"std::string", "GetAddress", []⟩,
    ⟨"unsigned", "GetPort", []⟩,
    ⟨"bool", "IsRunning", []⟩,
    ⟨"void", "RegisterRequestBroker", ["RequestBrokerPtr"]⟩,
    ⟨"void", "UnregisterRequestBroker", ["const std::string&"]⟩,
    ⟨"RequestBrokerPtr", "GetRequestBroker", ["const std::string&"]⟩,
    ⟨"std::vector<RequestBrokerPtr>", "AllRequestBroker", []⟩,
    ⟨"unsigned", "CreateSubscription", ["EventSubscriber *"]⟩,
    ⟨"bool", "SubscribeForEvent", ["unsigned", "EVENT_t"]⟩,
    ⟨"void", "RevokeSubscription", ["unsigned"]⟩,
    ⟨"void", "RevokeAllSubscriptions", ["EventSubscriber *"]⟩ ]

/-- The façade offers an operation with the name and the parameters of `s`. -/
def EventHandler.offers (s : Signature) : Bool :=
  EventHandler.operations.any fun t => t.name == s.name && t.params == s.params

/-! ## Zones (sonoszone.h) -/

/-- Modelled from the spec: class `ZonePlayer` derives from `Element`, whose header
element.h is not among the sources.  The spec describes a player as a named device
identity that may hold the coordinator role. -/
structure ZonePlayer where
  name : String
  coordinator : Bool
  deriving DecidableEq

/-- The typedef `ZonePlayerPtr`, a shared pointer. -/
abbrev ZonePlayerPtr := Option ZonePlayer

/-- An object of class `Zone`: the base-class sub-object `std::vector<ZonePlayerPtr>`
and the data member `m_group`. -/
structure Zone where
  players : List ZonePlayerPtr
  m_group : String
  deriving DecidableEq

/-- The constructor `Zone(const std::string& group) : m_group(group)`; the vector
base is default-constructed. -/
def Zone.new (group : String) : Zone :=
  { players := [], m_group := group }

/-- The member `const std::string& GetGroup() const`. -/
def Zone.GetGroup (z : Zone) : String :=
  z.m_group

/-- The player behind a pointer holds the coordinator role. -/
def ZonePlayerPtr.isCoordinator : ZonePlayerPtr → Bool
  | some pl => pl.coordinator
  | none => false

/-- Modelled from the spec: the body of `Zone::GetCoordinator() const` is in
sonoszone.cpp, which is not among the sources.  The spec: the coordinator is
derived by a first-matching-role lookup over the sequence, and an empty zone
gives an empty reference. -/
def Zone.lookupCoordinator : List ZonePlayerPtr → ZonePlayerPtr
  | [] => none
  | p :: rest => if ZonePlayerPtr.isCoordinator p then p else Zone.lookupCoordinator rest

/-- Modelled from the spec: `ZonePlayerPtr GetCoordinator() const`, the lookup
run over the zone's own sequence. -/
def Zone.GetCoordinator (z : Zone) : ZonePlayerPtr :=
  Zone.lookupCoordinator z.players

/-- An operation a `Zone` object offers: the three `const` member functions it
declares, and modifiers it inherits through its public base `std::vector<ZonePlayerPtr>`. -/
inductive ZoneOp where
  | GetGroup
  | GetZoneName
  | GetCoordinator
  | push_back (p : ZonePlayerPtr)
  | pop_back
  | insert (pos : Nat) (p : ZonePlayerPtr)
  | erase (pos : Nat)
  | clear
  deriving DecidableEq

/-- The zone object after an operation.  The declared members are `const`; the
inherited modifiers act on the vector base with the meaning `std::vector` gives
them (`insert` and `erase` at a position outside the sequence, and `pop_back` on an
empty sequence, are undefined there and leave the sequence as it is here). -/
def Zone.apply (z : Zone) : ZoneOp → Zone
  | .GetGroup => z
  | .GetZoneName => z
  | .GetCoordinator => z
  | .push_back p => { z with players := z.players ++ [p] }
  | .pop_back => { z with players := z.players.dropLast }
  | .insert pos p => { z with players := z.players.insertIdx pos p }
  | .erase pos => { z with players := z.players.eraseIdx pos }
  | .clear => { z with players := [] }

/-- The zone object after a finite sequence of operations, first to last. -/
def Zone.applyAll (z : Zone) (ops : List ZoneOp) : Zone :=
  ops.foldl Zone.apply z

/-! ## The subscription registry of the engine

Every subscription member function of `EventHandlerThread` is pure virtual and no
concrete engine is among the sources; the registry below follows section 3 and
section 4.1 of the specification. -/

/-- The largest value of type `unsigned` (32 bits). -/
def UINT_MAX : Nat := 2 ^ 32 - 1

/-- Modelled from the spec: a subscription, missing from the sources with the
concrete engine.  It has a unique id greater than zero, an owner (a reference to
an `EventSubscriber`) and a set of subscribed event kinds. -/
structure Subscription where
  id : Nat
  owner : Addr
  kinds : Finset EVENT_t
  deriving DecidableEq

/-- Modelled from the spec: the subscription state of a concrete engine, missing
from the sources.  `counter` is the monotonic id counter (the last id handed out,
`0` before the first), `subs` the current subscription set, oldest first. -/
structure Registry where
  counter : Nat
  subs : List Subscription
  deriving DecidableEq

/-- One call of `EventSubscriber::HandleEventMessage(msg)` made by a dispatch:
the subscription it is made for, the subscriber that receives it, the message. -/
structure Delivery where
  subid : Nat
  subscriber : Addr
  msg : EventMessage
  deriving DecidableEq

namespace Registry

/-- Modelled from the spec: the registry of a freshly constructed engine, no
subscription and no id handed out. -/
def init : Registry :=
  { counter := 0, subs := [] }

/-- Modelled from the spec: `CreateSubscription(subscriber)`, missing from the
sources.  It allocates a fresh, never reused id from a monotonic counter starting
at 1 and registers an empty kind set for it; it returns `0` if the subscriber is
null or no fresh `unsigned` id is left. -/
def CreateSubscription (r : Registry) (sub : EventSubscriberPtr) : Nat × Registry :=
  match sub with
  | none => (0, r)
  | some o =>
    if r.counter < UINT_MAX then
      (r.counter + 1,
       { counter := r.counter + 1, subs := r.subs ++ [⟨r.counter + 1, o, ∅⟩] })
    else (0, r)

/-- Modelled from the spec: `SubscribeForEvent(id, kind)`, missing from the
sources.  It adds `kind` to the kind set of the subscription and returns `false`
if `id` is unknown. -/
def SubscribeForEvent (r : Registry) (id : Nat) (kind : EVENT_t) : Bool × Registry :=
  if r.subs.any (fun s => s.id == id) then
    (true,
     { r with subs := r.subs.map fun s =>
        if s.id = id then { s with kinds := insert kind s.kinds } else s })
  else (false, r)

/-- Modelled from the spec: `RevokeSubscription(id)`, missing from the sources.
It removes the subscription and does nothing if `id` is unknown. -/
def RevokeSubscription (r : Registry) (id : Nat) : Registry :=
  { r with subs := r.subs.filter fun s => s.id ≠ id }

/-- Modelled from the spec: `RevokeAllSubscriptions(subscriber)`, missing from
the sources.  It removes every subscription owned by `subscriber`. -/
def RevokeAllSubscriptions (r : Registry) (sub : EventSubscriberPtr) : Registry :=
  { r with subs := r.subs.filter fun s => some s.owner ≠ sub }

/-- Modelled from the spec: `DispatchEvent(msg)`, missing from the sources.  It
iterates the current subscription set, oldest subscription first, and delivers
`msg` to every subscription whose kind set contains the kind of `msg`.  The value
is the sequence of deliveries made, in the order they are made; the registry is
not changed. -/
def DispatchEvent (r : Registry) (msg : EventMessage) : List Delivery :=
  (r.subs.filter fun s => msg.event ∈ s.kinds).map fun s => ⟨s.id, s.owner, msg⟩

end Registry

/-- A call of one of the subscription operations of the engine. -/
inductive RegistryOp where
  | CreateSubscription (sub : EventSubscriberPtr)
  | SubscribeForEvent (id : Nat) (kind : EVENT_t)
  | RevokeSubscription (id : Nat)
  | RevokeAllSubscriptions (sub : EventSubscriberPtr)
  | DispatchEvent (msg : EventMessage)
  deriving DecidableEq

/-- The registry after one operation. -/
def Registry.step (r : Registry) : RegistryOp → Registry
  | .CreateSubscription sub => (r.CreateSubscription sub).2
  | .SubscribeForEvent id kind => (r.SubscribeForEvent id kind).2
  | .RevokeSubscription id => r.RevokeSubscription id
  | .RevokeAllSubscriptions sub => r.RevokeAllSubscriptions sub
  | .DispatchEvent _ => r

/-- The registry of an engine on which the operations `ops` were called, first to
last, since its construction. -/
def Registry.after (ops : List RegistryOp) : Registry :=
  ops.foldl Registry.step Registry.init

/-- Subscribe the subscription `id` for each kind of `kinds`, in that order. -/
def Registry.subscribeAll (r : Registry) (id : Nat) (kinds : List EVENT_t) : Registry :=
  kinds.foldl (fun acc k => (acc.SubscribeForEvent id k).2) r

/-- The subscription `id` is live: it is in the current subscription set. -/
def Registry.live (r : Registry) (id : Nat) : Prop :=
  ∃ s ∈ r.subs, s.id = id

/-- The number of deliveries of `ds` made for the subscription `id`. -/
def Delivery.countFor (ds : List Delivery) (id : Nat) : Nat :=
  ds.countP fun d => d.subid = id

/-- The registry invariant: subscription ids are strictly ascending along the
subscription set, nonzero, and not above the counter. -/
def Registry.WellFormed (r : Registry) : Prop :=
  r.subs.Pairwise (fun a b => a.id < b.id) ∧ ∀ s ∈ r.subs, 0 < s.id ∧ s.id ≤ r.counter

/-- Claim C1. A façade that holds no engine returns the safe default from every
value-returning member function, for every argument, world and engine class:
`Start` and `IsRunning` and `SubscribeForEvent` give `false`, `GetAddress` the empty
string, `GetPort` and `CreateSubscription` give `0`, `GetRequestBroker` the empty
pointer and `AllRequestBroker` the empty sequence.  Every function is total. -/
theorem facade_without_engine_returns_defaults {σ : Type} (V : Virtuals σ) (w : World σ)
    (sub : EventSubscriberPtr) (subid : Nat) (event : EVENT_t) (name : String) :
    (EventHandler.Start V ⟨none⟩ w).ret = false
    ∧ (EventHandler.IsRunning V ⟨none⟩ w).ret = false
    ∧ (EventHandler.GetAddress ⟨none⟩ w).ret = ""
    ∧ (EventHandler.GetPort ⟨none⟩ w).ret = 0
    ∧ (EventHandler.CreateSubscription V sub ⟨none⟩ w).ret = 0
    ∧ (EventHandler.SubscribeForEvent V subid event ⟨none⟩ w).ret = false
    ∧ (EventHandler.GetRequestBroker V name ⟨none⟩ w).ret = none
    ∧ (EventHandler.AllRequestBroker V ⟨none⟩ w).ret = [] :=
  ⟨rfl, rfl, rfl, rfl, rfl, rfl, rfl, rfl⟩

/-- Claim C2. A façade that holds the engine at address `p` forwards every member
function to that engine: the value returned is the value the engine's member
function of the same name returns on the same arguments, the engine is left in the
state that member function leaves it in, no other object changes, and the engine's
member function is invoked exactly once (the record of invocations grows by that
one entry). -/
theorem facade_with_engine_forwards {σ : Type} (V : Virtuals σ) (w : World σ) (p : Addr)
    (sub : EventSubscriberPtr) (subid : Nat) (event : EVENT_t) (name : String)
    (rb : RequestBrokerPtr) :
    Forwards w ⟨some p⟩ p EngineCall.Start (V.Start (w.heap p)).1 (V.Start (w.heap p)).2
      (EventHandler.Start V ⟨some p⟩ w)
    ∧ Forwards w ⟨some p⟩ p EngineCall.IsRunning (V.IsRunning (w.heap p)).1
      (V.IsRunning (w.heap p)).2 (EventHandler.IsRunning V ⟨some p⟩ w)
    ∧ Forwards w ⟨some p⟩ p EngineCall.GetAddress (w.heap p).GetAddress (w.heap p)
      (EventHandler.GetAddress ⟨some p⟩ w)
    ∧ Forwards w ⟨some p⟩ p EngineCall.GetPort (w.heap p).GetPort (w.heap p)
      (EventHandler.GetPort ⟨some p⟩ w)
    ∧ Forwards w ⟨some p⟩ p (EngineCall.CreateSubscription sub)
      (V.CreateSubscription sub (w.heap p)).1 (V.CreateSubscription sub (w.heap p)).2
      (EventHandler.CreateSubscription V sub ⟨some p⟩ w)
    ∧ Forwards w ⟨some p⟩ p (EngineCall.SubscribeForEvent subid event)
      (V.SubscribeForEvent subid event (w.heap p)).1 (V.SubscribeForEvent subid event (w.heap p)).2
      (EventHandler.SubscribeForEvent V subid event ⟨some p⟩ w)
    ∧ Forwards w ⟨some p⟩ p (EngineCall.GetRequestBroker name)
      (V.GetRequestBroker name (w.heap p)).1 (V.GetRequestBroker name (w.heap p)).2
      (EventHandler.GetRequestBroker V name ⟨some p⟩ w)
    ∧ Forwards w ⟨some p⟩ p EngineCall.AllRequestBroker
      (V.AllRequestBroker (w.heap p)).1 (V.AllRequestBroker (w.heap p)).2
      (EventHandler.AllRequestBroker V ⟨some p⟩ w)
    ∧ Forwards w ⟨some p⟩ p EngineCall.Stop () (V.Stop (w.heap p))
      (EventHandler.Stop V ⟨some p⟩ w)
    ∧ Forwards w ⟨some p⟩ p (EngineCall.RevokeSubscription subid) ()
      (V.RevokeSubscription subid (w.heap p))
      (EventHandler.RevokeSubscription V subid ⟨some p⟩ w)
    ∧ Forwards w ⟨some p⟩ p (EngineCall.RevokeAllSubscriptions sub) ()
      (V.RevokeAllSubscriptions sub (w.heap p))
      (EventHandler.RevokeAllSubscriptions V sub ⟨some p⟩ w)
    ∧ Forwards w ⟨some p⟩ p (EngineCall.RegisterRequestBroker rb) ()
      (V.RegisterRequestBroker rb (w.heap p))
      (EventHandler.RegisterRequestBroker V rb ⟨some p⟩ w)
    ∧ Forwards w ⟨some p⟩ p (EngineCall.UnregisterRequestBroker name) ()
      (V.UnregisterRequestBroker name (w.heap p))
      (EventHandler.UnregisterRequestBroker V name ⟨some p⟩ w) := by
  refine ⟨?_, ?_, ?_, ?_, ?_, ?_, ?_, ?_, ?_, ?_, ?_, ?_, ?_⟩ <;>
    refine ⟨rfl, rfl, ?_, ?_, rfl⟩ <;>
    first
      | rfl
      | exact Function.update_same _ _ _
      | exact fun q hq => Function.update_noteq hq _ _
      | exact fun _ _ => rfl

/-- Claim C3. A façade that holds no engine performs no side effect in any of its
thirteen member functions, for every argument: after the call the façade still
holds no engine, every engine object is unchanged and no engine member function
has been invoked. -/
theorem facade_without_engine_no_effect {σ : Type} (V : Virtuals σ) (w : World σ)
    (sub : EventSubscriberPtr) (subid : Nat) (event : EVENT_t) (name : String)
    (rb : RequestBrokerPtr) :
    NoEffect w ⟨none⟩ (EventHandler.Start V ⟨none⟩ w)
    ∧ NoEffect w ⟨none⟩ (EventHandler.Stop V ⟨none⟩ w)
    ∧ NoEffect w ⟨none⟩ (EventHandler.IsRunning V ⟨none⟩ w)
    ∧ NoEffect w ⟨none⟩ (EventHandler.GetAddress ⟨none⟩ w)
    ∧ NoEffect w ⟨none⟩ (EventHandler.GetPort ⟨none⟩ w)
    ∧ NoEffect w ⟨none⟩ (EventHandler.RegisterRequestBroker V rb ⟨none⟩ w)
    ∧ NoEffect w ⟨none⟩ (EventHandler.UnregisterRequestBroker V name ⟨none⟩ w)
    ∧ NoEffect w ⟨none⟩ (EventHandler.GetRequestBroker V name ⟨none⟩ w)
    ∧ NoEffect w ⟨none⟩ (EventHandler.AllRequestBroker V ⟨none⟩ w)
    ∧ NoEffect w ⟨none⟩ (EventHandler.CreateSubscription V sub ⟨none⟩ w)
    ∧ NoEffect w ⟨none⟩ (EventHandler.SubscribeForEvent V subid event ⟨none⟩ w)
    ∧ NoEffect w ⟨none⟩ (EventHandler.RevokeSubscription V subid ⟨none⟩ w)
    ∧ NoEffect w ⟨none⟩ (EventHandler.RevokeAllSubscriptions V sub ⟨none⟩ w) :=
  ⟨⟨rfl, rfl, rfl⟩, ⟨rfl, rfl, rfl⟩, ⟨rfl, rfl, rfl⟩, ⟨rfl, rfl, rfl⟩, ⟨rfl, rfl, rfl⟩,
   ⟨rfl, rfl, rfl⟩, ⟨rfl, rfl, rfl⟩, ⟨rfl, rfl, rfl⟩, ⟨rfl, rfl, rfl⟩, ⟨rfl, rfl, rfl⟩,
   ⟨rfl, rfl, rfl⟩, ⟨rfl, rfl, rfl⟩, ⟨rfl, rfl, rfl⟩⟩

/-- One façade call leaves the data member `m_imp` as it was. -/
theorem EventHandler.exec_m_imp {σ : Type} (V : Virtuals σ) (op : FacadeOp)
    (h : EventHandler) (w : World σ) : (h.exec V op w).1.m_imp = h.m_imp := by
  cases op <;> cases h with
  | mk m => cases m <;> rfl

/-- A sequence of façade calls leaves the data member `m_imp` as it was. -/
theorem EventHandler.run_m_imp {σ : Type} (V : Virtuals σ) (ops : List FacadeOp) :
    ∀ (h : EventHandler) (w : World σ), (EventHandler.run V ops h w).1.m_imp = h.m_imp := by
  induction ops with
  | nil => intro h w; rfl
  | cons op ops ih =>
    intro h w
    show (EventHandler.run V ops (h.exec V op w).1 (h.exec V op w).2).1.m_imp = h.m_imp
    rw [ih, EventHandler.exec_m_imp]

/-- Claim C10. The engine a façade holds is fixed: after any finite sequence of
façade calls, with any arguments, `m_imp` is what it was before (the same engine
address, or still empty).  Hence a façade built without an engine still returns
`false` from `Start` and `IsRunning` and `0` from `CreateSubscription` after any
sequence of calls. -/
theorem facade_engine_fixed {σ : Type} (V : Virtuals σ) (ops : List FacadeOp)
    (h : EventHandler) (w : World σ) (sub : EventSubscriberPtr) :
    (EventHandler.run V ops h w).1.m_imp = h.m_imp
    ∧ (EventHandler.Start V (EventHandler.run V ops ⟨none⟩ w).1
        (EventHandler.run V ops ⟨none⟩ w).2).ret = false
    ∧ (EventHandler.IsRunning V (EventHandler.run V ops ⟨none⟩ w).1
        (EventHandler.run V ops ⟨none⟩ w).2).ret = false
    ∧ (EventHandler.CreateSubscription V sub (EventHandler.run V ops ⟨none⟩ w).1
        (EventHandler.run V ops ⟨none⟩ w).2).ret = 0 := by
  have hnone : (EventHandler.run V ops ⟨none⟩ w).1.m_imp = none :=
    EventHandler.run_m_imp V ops ⟨none⟩ w
  refine ⟨EventHandler.run_m_imp V ops h w, ?_, ?_, ?_⟩
  · simp only [EventHandler.Start, hnone]
  · simp only [EventHandler.IsRunning, hnone]
  · simp only [EventHandler.CreateSubscription, hnone]

/-! ## Event messages -/

/-- Claim C9. A default-constructed `EventMessage` has kind `EVENT_UNKNOWN` and an
empty subject sequence; the four event kinds are pairwise distinct, with the
distinct integer values 0, 1, 2, 3; and every message carries exactly one of them. -/
theorem default_message_unknown_kinds_distinct :
    EventMessage.new.event = EVENT_t.EVENT_UNKNOWN
    ∧ EventMessage.new.subject = []
    ∧ [EVENT_t.EVENT_HANDLER_STATUS, EVENT_t.EVENT_UPNP_PROPCHANGE,
        EVENT_t.EVENT_HTTP_STREAM, EVENT_t.EVENT_UNKNOWN].Nodup
    ∧ [EVENT_t.EVENT_HANDLER_STATUS, EVENT_t.EVENT_UPNP_PROPCHANGE,
        EVENT_t.EVENT_HTTP_STREAM, EVENT_t.EVENT_UNKNOWN].map EVENT_t.toNat = [0, 1, 2, 3]
    ∧ Function.Injective EVENT_t.toNat
    ∧ ∀ m : EventMessage,
        ∃! k, k ∈ [EVENT_t.EVENT_HANDLER_STATUS, EVENT_t.EVENT_UPNP_PROPCHANGE,
          EVENT_t.EVENT_HTTP_STREAM, EVENT_t.EVENT_UNKNOWN] ∧ m.event = k := by
  refine ⟨rfl, rfl, by decide, rfl, ?_, ?_⟩
  · intro a b hab
    cases a <;> cases b <;> first | rfl | exact absurd hab (by decide)
  · intro m
    refine ⟨m.event, ⟨?_, rfl⟩, fun k hk => hk.2.symm⟩
    cases m.event <;> decide

/-! ## Operation sets -/

/-- Claim C5, as the claim states it, fails: the engine declares `DispatchEvent`
and the façade offers no operation of that name and those arguments. -/
theorem facade_lacks_DispatchEvent :
    (⟨"void", "DispatchEvent", ["const EventMessagePtr&"]⟩ : Signature)
        ∈ EventHandlerThread.operations
    ∧ EventHandler.offers ⟨"void", "DispatchEvent", ["const EventMessagePtr&"]⟩ = false
    ∧ ∀ t ∈ EventHandler.operations, t.name ≠ "DispatchEvent" := by
  decide

/-- Claim C5, amended. Every operation the engine declares, `DispatchEvent`
excepted, is declared by the façade with the same name, the same parameters and
the same return type; and `DispatchEvent` is the only engine operation the
façade does not declare. -/
theorem facade_offers_engine_operations_except_dispatch (s : Signature)
    (hs : s ∈ EventHandlerThread.operations) :
    (s ∈ EventHandler.operations ↔ s.name ≠ "DispatchEvent")
    ∧ (EventHandler.offers s = true ↔ s.name ≠ "DispatchEvent") := by
  revert s
  decide

/-- The amended claim C5 at the engine operation `bool Start()`. -/
theorem facade_offers_engine_operations_except_dispatch_witness :
    (⟨"bool", "Start", []⟩ : Signature) ∈ EventHandlerThread.operations
    ∧ (((⟨"bool", "Start", []⟩ : Signature) ∈ EventHandler.operations
          ↔ (⟨"bool", "Start", []⟩ : Signature).name ≠ "DispatchEvent")
        ∧ (EventHandler.offers ⟨"bool", "Start", []⟩ = true
          ↔ (⟨"bool", "Start", []⟩ : Signature).name ≠ "DispatchEvent")) :=
  ⟨by decide, facade_offers_engine_operations_except_dispatch ⟨"bool", "Start", []⟩ (by decide)⟩

/-! ## Zones -/

/-- The lookup finds nothing exactly when no player of the sequence holds the role;
otherwise it returns the first player that does. -/
theorem Zone.lookupCoordinator_spec (ps : List ZonePlayerPtr) :
    (Zone.lookupCoordinator ps = none ∧ ∀ q ∈ ps, ZonePlayerPtr.isCoordinator q = false)
    ∨ ∃ pre pl post, ps = pre ++ some pl :: post ∧ pl.coordinator = true
        ∧ (∀ q ∈ pre, ZonePlayerPtr.isCoordinator q = false)
        ∧ Zone.lookupCoordinator ps = some pl := by
  induction ps with
  | nil => exact Or.inl ⟨rfl, by simp⟩
  | cons p rest ih =>
    cases hp : ZonePlayerPtr.isCoordinator p with
    | true =>
      right
      cases p with
      | none => simp [ZonePlayerPtr.isCoordinator] at hp
      | some pl =>
        refine ⟨[], pl, rest, rfl, ?_, by simp, ?_⟩
        · simpa [ZonePlayerPtr.isCoordinator] using hp
        · simp [Zone.lookupCoordinator, hp]
    | false =>
      have hstep : Zone.lookupCoordinator (p :: rest) = Zone.lookupCoordinator rest := by
        simp [Zone.lookupCoordinator, hp]
      rcases ih with ⟨hnone, hall⟩ | ⟨pre, pl, post, hsplit, hrole, hpre, hres⟩
      · left
        refine ⟨hstep.trans hnone, ?_⟩
        intro q hq
        rcases List.mem_cons.mp hq with rfl | hq
        · exact hp
        · exact hall q hq
      · right
        refine ⟨p :: pre, pl, post, by simp [hsplit], hrole, ?_, hstep.trans hres⟩
        intro q hq
        rcases List.mem_cons.mp hq with rfl | hq
        · exact hp
        · exact hpre q hq

/-- Claim C6. `GetCoordinator` returns the first player of the zone's sequence
that holds the coordinator role (every player before it does not hold it), and
the empty reference when no player holds it; in particular it returns the empty
reference for an empty zone, and for players A, B, C of which only B holds the
role it returns B. -/
theorem zone_GetCoordinator_first_with_role (z : Zone) (g a b c : String) :
    ((z.GetCoordinator = none ∧ ∀ q ∈ z.players, ZonePlayerPtr.isCoordinator q = false)
      ∨ ∃ pre pl post, z.players = pre ++ some pl :: post ∧ pl.coordinator = true
          ∧ (∀ q ∈ pre, ZonePlayerPtr.isCoordinator q = false)
          ∧ z.GetCoordinator = some pl)
    ∧ (Zone.new g).GetCoordinator = none
    ∧ (Zone.mk [] g).GetCoordinator = none
    ∧ (Zone.mk [some ⟨a, false⟩, some ⟨b, true⟩, some ⟨c, false⟩] g).GetCoordinator
        = some ⟨b, true⟩ :=
  ⟨Zone.lookupCoordinator_spec z.players, rfl, rfl, rfl⟩

/-- No operation changes the data member `m_group`. -/
theorem Zone.apply_m_group (z : Zone) (op : ZoneOp) : (z.apply op).m_group = z.m_group := by
  cases op <;> rfl

/-- No sequence of operations changes the data member `m_group`. -/
theorem Zone.applyAll_m_group (ops : List ZoneOp) :
    ∀ z : Zone, (z.applyAll ops).m_group = z.m_group := by
  induction ops with
  | nil => intro z; rfl
  | cons op ops ih =>
    intro z
    show ((z.apply op).applyAll ops).m_group = z.m_group
    rw [ih, Zone.apply_m_group]

/-- Claim C8. A zone constructed with group `g` has `GetGroup() = g` and an empty
player sequence; and `GetGroup()` returns the group given at construction whatever
players the sequence holds, also after any sequence of operations on the zone. -/
theorem zone_GetGroup_is_constructed_group (g : String) (ps : List ZonePlayerPtr)
    (ops : List ZoneOp) :
    (Zone.new g).GetGroup = g
    ∧ (Zone.new g).players = []
    ∧ (Zone.mk ps g).GetGroup = g
    ∧ ((Zone.new g).applyAll ops).GetGroup = g :=
  ⟨rfl, rfl, rfl, Zone.applyAll_m_group ops (Zone.new g)⟩

/-! ## Subscription registry and dispatch -/

/-- Each operation keeps the registry invariant. -/
theorem Registry.step_wellFormed (r : Registry) (op : RegistryOp) (h : r.WellFormed) :
    (r.step op).WellFormed := by
  obtain ⟨hsorted, hbound⟩ := h
  cases op with
  | CreateSubscription sub =>
    cases sub with
    | none => exact ⟨hsorted, hbound⟩
    | some o =>
      by_cases hc : r.counter < UINT_MAX
      · simp only [Registry.step, Registry.CreateSubscription, hc, if_true]
        refine ⟨?_, ?_⟩
        · rw [List.pairwise_append]
          refine ⟨hsorted, List.pairwise_singleton _ _, ?_⟩
          intro a ha b hb
          rw [List.mem_singleton] at hb
          subst hb
          exact Nat.lt_succ_of_le (hbound a ha).2
        · intro s hs
          rcases List.mem_append.mp hs with hs | hs
          · exact ⟨(hbound s hs).1, Nat.le_succ_of_le (hbound s hs).2⟩
          · rw [List.mem_singleton] at hs
            subst hs
            exact ⟨Nat.succ_pos _, Nat.le_refl _⟩
      · simp only [Registry.step, Registry.CreateSubscription, hc, if_false]
        exact ⟨hsorted, hbound⟩
  | SubscribeForEvent id kind =>
    by_cases ha : (r.subs.any fun s => s.id == id) = true
    · simp only [Registry.step, Registry.SubscribeForEvent, ha, if_true]
      refine ⟨?_, ?_⟩
      · rw [List.pairwise_map]
        refine hsorted.imp ?_
        intro a b hab
        by_cases h1 : a.id = id <;> by_cases h2 : b.id = id <;> simp [h1, h2] <;> omega
      · intro s hs
        obtain ⟨t, ht, rfl⟩ := List.mem_map.mp hs
        by_cases h1 : t.id = id
        · simpa [h1] using hbound t ht
        · simpa [h1] using hbound t ht
    · simp only [Registry.step, Registry.SubscribeForEvent, ha]
      exact ⟨hsorted, hbound⟩
  | RevokeSubscription id =>
    exact ⟨hsorted.filter _, fun s hs => hbound s (List.mem_filter.mp hs).1⟩
  | RevokeAllSubscriptions sub =>
    exact ⟨hsorted.filter _, fun s hs => hbound s (List.mem_filter.mp hs).1⟩
  | DispatchEvent msg => exact ⟨hsorted, hbound⟩

/-- Running operations from a well-formed registry gives a well-formed registry. -/
theorem Registry.foldl_wellFormed (ops : List RegistryOp) :
    ∀ r : Registry, r.WellFormed → (ops.foldl Registry.step r).WellFormed := by
  induction ops with
  | nil => intro r h; exact h
  | cons op ops ih => intro r h; exact ih _ (Registry.step_wellFormed r op h)

/-- Every registry an engine can be in satisfies the invariant. -/
theorem Registry.after_wellFormed (ops : List RegistryOp) : (Registry.after ops).WellFormed :=
  Registry.foldl_wellFormed ops Registry.init ⟨List.Pairwise.nil, by simp [Registry.init]⟩

/-- In a list with strictly ascending ids, two subscriptions with the same id
are the same subscription. -/
theorem Subscription.eq_of_id_eq {l : List Subscription}
    (hp : l.Pairwise (fun a b => a.id < b.id)) {s t : Subscription}
    (hs : s ∈ l) (ht : t ∈ l) (hid : s.id = t.id) : s = t := by
  by_contra hne
  have hne_id : l.Pairwise (fun a b => a.id ≠ b.id) := hp.imp (fun h => Nat.ne_of_lt h)
  exact (hne_id.forall (fun _ _ h => Ne.symm h)) hs ht hne hid

/-- In a list with strictly ascending ids, exactly one entry has the id of a member. -/
theorem Subscription.countP_id_eq_one :
    ∀ (l : List Subscription), l.Pairwise (fun a b => a.id < b.id) →
      ∀ s ∈ l, l.countP (fun t => decide (t.id = s.id)) = 1 := by
  intro l
  induction l with
  | nil => intro _ s hs; exact absurd hs (List.not_mem_nil s)
  | cons a l ih =>
    intro hp s hs
    obtain ⟨hhead, htail⟩ := List.pairwise_cons.mp hp
    rw [List.countP_cons]
    rcases List.mem_cons.mp hs with rfl | hs
    · have hzero : l.countP (fun t => decide (t.id = s.id)) = 0 := by
        rw [List.countP_eq_zero]
        intro b hb
        have := hhead b hb
        simp only [decide_eq_true_eq]
        omega
      simp [hzero]
    · have hlt := hhead s hs
      have hne : ¬ a.id = s.id := by omega
      simp [ih htail s hs, hne]

/-- The subscriptions a dispatch delivers to, as a list of registry entries. -/
theorem Registry.dispatch_eq_map (r : Registry) (msg : EventMessage) :
    r.DispatchEvent msg
      = (r.subs.filter fun s => msg.event ∈ s.kinds).map fun s => ⟨s.id, s.owner, msg⟩ :=
  rfl

/-- The number of deliveries for an id is the number of matching entries with that id. -/
theorem Registry.countFor_dispatch (r : Registry) (msg : EventMessage) (id : Nat) :
    Delivery.countFor (r.DispatchEvent msg) id
      = (r.subs.filter fun s => msg.event ∈ s.kinds).countP (fun t => decide (t.id = id)) := by
  unfold Delivery.countFor
  rw [Registry.dispatch_eq_map, List.countP_map]
  rfl

/-- One `SubscribeForEvent` adds the kind to the kind set of the entry `id`,
whether or not the id is known. -/
theorem Registry.subscribe_subs (r : Registry) (id : Nat) (k : EVENT_t) :
    (r.SubscribeForEvent id k).2
      = { r with subs := r.subs.map fun s =>
            if s.id = id then { s with kinds := insert k s.kinds } else s } := by
  by_cases ha : (r.subs.any fun s => s.id == id) = true
  · simp only [Registry.SubscribeForEvent, ha, if_true]
  · simp only [Registry.SubscribeForEvent, ha]
    have hnone : ∀ s ∈ r.subs, ¬ s.id = id := by
      intro s hs hid
      apply ha
      rw [List.any_eq_true]
      exact ⟨s, hs, by simp [hid]⟩
    have hmap : (r.subs.map fun s =>
        if s.id = id then { s with kinds := insert k s.kinds } else s) = r.subs := by
      conv_rhs => rw [← List.map_id r.subs]
      apply List.map_congr_left
      intro s hs
      simp [hnone s hs]
    rw [hmap]
    simp

/-- Subscribing for a list of kinds adds the set of those kinds to the entry `id`. -/
theorem Registry.subscribeAll_subs (ks : List EVENT_t) (id : Nat) :
    ∀ r : Registry, r.subscribeAll id ks
      = { r with subs := r.subs.map fun s =>
            if s.id = id then { s with kinds := s.kinds ∪ ks.toFinset } else s } := by
  induction ks with
  | nil =>
    intro r
    simp [Registry.subscribeAll]
  | cons k ks ih =>
    intro r
    show ((r.SubscribeForEvent id k).2).subscribeAll id ks = _
    rw [ih, Registry.subscribe_subs]
    simp only [List.map_map, List.toFinset_cons]
    congr 1
    apply List.map_congr_left
    intro s _
    by_cases h1 : s.id = id
    · simp [h1, Finset.insert_union, Finset.union_insert]
    · simp [h1]

/-- Claim C4. In every registry an engine can reach (the registry after any
sequence of operations since construction) and for every message `msg`,
`DispatchEvent(msg)` makes exactly one delivery for each live subscription whose
kind set contains the kind of `msg`, and that delivery hands `msg` to the owner of
the subscription; it makes no delivery for a live subscription whose kind set lacks
the kind, none for an id that is not live, and no delivery apart from those; the
deliveries are made in strictly ascending order of subscription id; a subscription
revoked by `RevokeSubscription` or `RevokeAllSubscriptions` gets no delivery while
every other delivery is kept; and the deliveries do not depend on the order in
which kinds were added to a subscription with `SubscribeForEvent`. -/
theorem dispatch_delivers_to_live_matching_ascending (ops : List RegistryOp)
    (msg : EventMessage) :
    (∀ s ∈ (Registry.after ops).subs,
        Delivery.countFor ((Registry.after ops).DispatchEvent msg) s.id
          = if msg.event ∈ s.kinds then 1 else 0)
    ∧ (∀ s ∈ (Registry.after ops).subs, msg.event ∈ s.kinds →
        (⟨s.id, s.owner, msg⟩ : Delivery) ∈ (Registry.after ops).DispatchEvent msg)
    ∧ (∀ id, ¬ (Registry.after ops).live id →
        Delivery.countFor ((Registry.after ops).DispatchEvent msg) id = 0)
    ∧ (∀ d ∈ (Registry.after ops).DispatchEvent msg,
        ∃ s ∈ (Registry.after ops).subs, msg.event ∈ s.kinds ∧ d = ⟨s.id, s.owner, msg⟩)
    ∧ (((Registry.after ops).DispatchEvent msg).map Delivery.subid).Sorted (· < ·)
    ∧ (∀ id, ((Registry.after ops).RevokeSubscription id).DispatchEvent msg
        = ((Registry.after ops).DispatchEvent msg).filter fun d => d.subid ≠ id)
    ∧ (∀ sub, ((Registry.after ops).RevokeAllSubscriptions sub).DispatchEvent msg
        = ((Registry.after ops).DispatchEvent msg).filter fun d => some d.subscriber ≠ sub)
    ∧ (∀ id ks ks2, List.Perm ks ks2 →
        ((Registry.after ops).subscribeAll id ks).DispatchEvent msg
          = ((Registry.after ops).subscribeAll id ks2).DispatchEvent msg) := by
  obtain ⟨hsorted, _⟩ := Registry.after_wellFormed ops
  generalize Registry.after ops = r at hsorted ⊢
  have hfs : (r.subs.filter fun s => msg.event ∈ s.kinds).Pairwise (fun a b => a.id < b.id) :=
    hsorted.filter _
  refine ⟨?_, ?_, ?_, ?_, ?_, ?_, ?_, ?_⟩
  · intro s hs
    rw [Registry.countFor_dispatch]
    by_cases hk : msg.event ∈ s.kinds
    · rw [if_pos hk]
      exact Subscription.countP_id_eq_one _ hfs s (List.mem_filter.mpr ⟨hs, by simpa using hk⟩)
    · rw [if_neg hk, List.countP_eq_zero]
      intro t ht
      obtain ⟨htmem, htk⟩ := List.mem_filter.mp ht
      simp only [decide_eq_true_eq]
      intro hid
      have : t = s := Subscription.eq_of_id_eq hsorted htmem hs hid
      subst this
      exact hk (by simpa using htk)
  · intro s hs hk
    rw [Registry.dispatch_eq_map]
    exact List.mem_map.mpr ⟨s, List.mem_filter.mpr ⟨hs, by simpa using hk⟩, rfl⟩
  · intro id hlive
    rw [Registry.countFor_dispatch, List.countP_eq_zero]
    intro t ht
    simp only [decide_eq_true_eq]
    intro hid
    exact hlive ⟨t, (List.mem_filter.mp ht).1, hid⟩
  · intro d hd
    rw [Registry.dispatch_eq_map] at hd
    obtain ⟨s, hs, rfl⟩ := List.mem_map.mp hd
    obtain ⟨hmem, hk⟩ := List.mem_filter.mp hs
    exact ⟨s, hmem, by simpa using hk, rfl⟩
  · rw [Registry.dispatch_eq_map, List.map_map]
    exact List.pairwise_map.mpr hfs
  · intro id
    simp only [Registry.dispatch_eq_map, Registry.RevokeSubscription, List.filter_map,
      List.filter_filter]
    congr 1
    apply List.filter_congr
    intro s _
    simp [Bool.and_comm]
  · intro sub
    simp only [Registry.dispatch_eq_map, Registry.RevokeAllSubscriptions, List.filter_map,
      List.filter_filter]
    congr 1
    apply List.filter_congr
    intro s _
    simp [Bool.and_comm]
  · intro id ks ks2 hperm
    rw [Registry.subscribeAll_subs, Registry.subscribeAll_subs,
      List.toFinset_eq_of_perm ks ks2 hperm]

/-- The scenario of two subscribers, S1 at address 100 and S2 at address 200:
S1 subscribes first and for `EVENT_UPNP_PROPCHANGE` only, S2 second and for
`EVENT_HTTP_STREAM` and then `EVENT_UPNP_PROPCHANGE`.  A property change reaches
S1 then S2, a stream event only S2, and nothing reaches S1 once it is revoked. -/
theorem dispatch_scenario :
    (Registry.after
        [RegistryOp.CreateSubscription (some 100), RegistryOp.CreateSubscription (some 200),
         RegistryOp.SubscribeForEvent 2 EVENT_t.EVENT_HTTP_STREAM,
         RegistryOp.SubscribeForEvent 2 EVENT_t.EVENT_UPNP_PROPCHANGE,
         RegistryOp.SubscribeForEvent 1 EVENT_t.EVENT_UPNP_PROPCHANGE]).DispatchEvent
        ⟨EVENT_t.EVENT_UPNP_PROPCHANGE, ["volume", "42"]⟩
      = [⟨1, 100, ⟨EVENT_t.EVENT_UPNP_PROPCHANGE, ["volume", "42"]⟩⟩,
         ⟨2, 200, ⟨EVENT_t.EVENT_UPNP_PROPCHANGE, ["volume", "42"]⟩⟩]
    ∧ (Registry.after
        [RegistryOp.CreateSubscription (some 100), RegistryOp.CreateSubscription (some 200),
         RegistryOp.SubscribeForEvent 2 EVENT_t.EVENT_HTTP_STREAM,
         RegistryOp.SubscribeForEvent 2 EVENT_t.EVENT_UPNP_PROPCHANGE,
         RegistryOp.SubscribeForEvent 1 EVENT_t.EVENT_UPNP_PROPCHANGE]).DispatchEvent
        ⟨EVENT_t.EVENT_HTTP_STREAM, []⟩
      = [⟨2, 200, ⟨EVENT_t.EVENT_HTTP_STREAM, []⟩⟩]
    ∧ (Registry.after
        [RegistryOp.CreateSubscription (some 100), RegistryOp.CreateSubscription (some 200),
         RegistryOp.SubscribeForEvent 2 EVENT_t.EVENT_HTTP_STREAM,
         RegistryOp.SubscribeForEvent 2 EVENT_t.EVENT_UPNP_PROPCHANGE,
         RegistryOp.SubscribeForEvent 1 EVENT_t.EVENT_UPNP_PROPCHANGE,
         RegistryOp.RevokeSubscription 1]).DispatchEvent
        ⟨EVENT_t.EVENT_UPNP_PROPCHANGE, ["volume", "42"]⟩
      = [⟨2, 200, ⟨EVENT_t.EVENT_UPNP_PROPCHANGE, ["volume", "42"]⟩⟩] := by
  decide

end NSROOT
